import Mathlib

/-!
Shallow embedding of `src/btlewrap/bleakbackend.py`.

The module defines a retry decorator `wrap_exception` (lines 14-38) whose
inner loop `_func_wrapper` (lines 23-36) retries an operation on transient
bleak errors, and a class `BleakBackend` whose methods `connect`,
`disconnect`, `read_handle`, `write_handle`, `wait_for_notification` and
`scan_for_devices` call into the bleak transport through that decorator.

Modelling conventions:
- Python exceptions become the `PyError` inductive; the transient class
  `(BleakDBusError, BleakError)` caught by the wrapper is `BleakErr`
  (a `BleakDBusError` is distinguished by the `isDBus` flag).
- The transport (bleak `BleakClient` / `BleakScanner` / the stored
  peripheral object) is a black box, modelled by a `Transport` record of
  the primitives the source calls, each returning either a value or a
  transient `BleakErr`, as in the external-interface contract.
- Every transport call an execution performs is recorded in an event
  trace (`TEvent`), and every retry attempt and `time.sleep(RETRY_DELAY)`
  of the wrapper loop in a `RetryEvent` trace, so that claims about
  delegation, ordering, attempt counts and delays are statements about
  these traces.
- `async def` bodies are effect functions; `await E` performs the effect
  of `E`.  A call of an `async def` without `await` (as in
  `self.write_handle(handle, self._DATA_MODE_LISTEN)` inside
  `wait_for_notification`, line 95) creates a coroutine that is discarded
  and never executes, so it contributes no effect and no trace event.
- The same coroutine semantics governs the decorator composition: the
  synchronous `_func_wrapper` applied to an `async def` method returns
  the un-awaited coroutine from its first `return func(*args, **kwargs)`
  (line 28), so the method body runs exactly once — at the caller's
  `await` — and its exceptions bypass the `except` clause: the decorated
  methods are modelled by `method_wrapper`, a pass-through of one body
  run.  The loop of lines 26-36 (`func_wrapper_loop`) retries only what
  the call of `func` itself raises or returns.
- The session field `self._peripheral` is `Option Token`: `none` is the
  Disconnected state, `some tok` the Connected state holding the token.
-/

/-- A transient transport error: an instance of bleak `BleakError`, with
`isDBus = true` for the subclass `BleakDBusError`.  These are exactly the
exceptions caught by the retry loop (line 29). -/
structure BleakErr where
  isDBus : Bool
  msg : String
deriving DecidableEq, Repr

/-- A Python exception as observed at the boundary of this module:
a transient bleak error, a `BluetoothBackendException` (from
`btlewrap.base`; carries an optional `__cause__` set by `raise ... from`),
or any other exception. -/
inductive PyError where
  | bleak (e : BleakErr)
  | backendException (msg : String) (cause : Option BleakErr)
  | other (name : String)
deriving DecidableEq, Repr

/-- Whether the retry loop catches this exception: only the bleak
errors `(BleakDBusError, BleakError)` are caught (line 29). -/
def PyError.isTransient : PyError → Bool
  | .bleak _ => true
  | _ => false

/-- `RETRY_LIMIT = 3` (line 10). -/
def RETRY_LIMIT : Nat := 3

/-- `RETRY_DELAY = 0.1` seconds (line 11), expressed in milliseconds. -/
def RETRY_DELAY_MS : Nat := 100

/-- One observable step of the retry loop `_func_wrapper`: an invocation
of the wrapped operation (numbered from 0) or a `time.sleep` of the given
number of milliseconds. -/
inductive RetryEvent where
  | attempt (i : Nat)
  | sleep (ms : Nat)
deriving DecidableEq, Repr

deriving instance DecidableEq for Except

/-- The outcome of one run of `_func_wrapper`: the value returned or the
exception raised to the caller, together with the trace of attempts and
sleeps performed. -/
structure WrapRun (α : Type) where
  result : Except PyError α
  trace : List RetryEvent
deriving DecidableEq, Repr

/-- The loop of `_func_wrapper` (lines 26-36).  The wrapped operation is
given attempt-indexed: `op i` is what the call of `func` raises or
returns on its `i`-th invocation.  `while error_count < RETRY_LIMIT` is
modelled by structural recursion on `fuel = RETRY_LIMIT - error_count`;
`i` is the attempt index (equal to `error_count` at loop entry, since the
loop only repeats after a caught failure, which increments the counter)
and `lastError` is the `last_error` variable.  On a caught transient
failure the loop sleeps `RETRY_DELAY` (line 32) and retries; when the
counter reaches the limit it raises
`BluetoothBackendException() from last_error` (line 36). -/
def func_wrapper_loop (op : Nat → Except PyError α) :
    Nat → Nat → Option BleakErr → WrapRun α
  | 0, _, lastError => ⟨.error (.backendException "" lastError), []⟩
  | fuel + 1, i, _ =>
    match op i with
    | .ok v => ⟨.ok v, [.attempt i]⟩
    | .error (.bleak e) =>
      let rest := func_wrapper_loop op fuel (i + 1) (some e)
      ⟨rest.result, .attempt i :: .sleep RETRY_DELAY_MS :: rest.trace⟩
    | .error err => ⟨.error err, [.attempt i]⟩

/-- `_func_wrapper` as produced by `wrap_exception` (lines 23-38):
run the loop with `error_count = 0` and `last_error = None`
(lines 24-25). -/
def func_wrapper (op : Nat → Except PyError α) : WrapRun α :=
  func_wrapper_loop op RETRY_LIMIT 0 none

/-- The `peripheral_handle` connection token stored in `self._peripheral`:
an opaque identifier for the connection object the transport yields. -/
abbrev Token := Nat

/-- The duck-typed notification delegate object, opaque: an identifier. -/
abbrev Delegate := Nat

/-- A timeout duration (Python passes a float of seconds; only passed
through to the transport, so modelled opaquely). -/
abbrev Timeout := Nat

/-- A `bytes` payload: a list of byte values. -/
abbrev Bytes := List Nat

/-- One advertisement produced by `scanner.discover` (line 125): a device
object with an `address` and a possibly absent `name`. -/
structure Device where
  address : String
  name : Option String
deriving DecidableEq, Repr

/-- One call into the bleak transport performed by a method body, with
its arguments as passed at the call site. -/
inductive TEvent where
  | connectCall (mac : String)
  | disconnectCall (tok : Token)
  | readGattCharCall (tok : Token) (nativeHandle : Int)
  | writeGattCharCall (tok : Token) (nativeHandle : Int) (value : Bytes) (ack : Bool)
  | withDelegateCall (tok : Token) (delegate : Delegate)
  | waitForNotificationsCall (tok : Token) (timeout : Timeout)
  | discoverCall (timeout : Timeout)
deriving DecidableEq, Repr

/-- The black-box transport provider: the behaviour of the bleak
primitives the source calls.  Each primitive either yields a value or
raises a transient `BleakErr`.  `connect` is `BleakClient(mac).connect()`
(line 55), `disconnect` the peripheral release (line 64), `read_gatt_char`
and `write_gatt_char` the characteristic access (lines 77, 87),
`withDelegate` and `waitForNotifications` the delegate registration and
notification wait on the stored peripheral (lines 96-97), and `discover`
is `BleakScanner().discover(timeout)` (line 125). -/
structure Transport where
  connect : String → Except BleakErr Token
  disconnect : Token → Except BleakErr Unit
  read_gatt_char : Token → Int → Except BleakErr Bytes
  write_gatt_char : Token → Int → Bytes → Bool → Except BleakErr Unit
  withDelegate : Token → Delegate → Except BleakErr Unit
  waitForNotifications : Token → Timeout → Except BleakErr Bool
  discover : Timeout → Except BleakErr (List Device)

/-- The effect of running one method body once from state `state₀`:
the value returned or exception raised, the session state it leaves
behind, and the transport calls it performed, in order. -/
structure BodyResult (α σ : Type) where
  result : Except PyError α
  state : σ
  events : List TEvent
deriving DecidableEq, Repr

/-- What the awaiting caller of a `wrap_exception`-decorated method
observes: the final value or exception, the final session state, and
every transport call performed, in order. -/
structure MethodRun (α σ : Type) where
  result : Except PyError α
  state : σ
  events : List TEvent
deriving DecidableEq, Repr

/-- A `wrap_exception`-decorated `async def` method as its awaiting
caller observes it.  `_func_wrapper` is synchronous: every method of
`BleakBackend` is `async def`, so on the first loop iteration
`return func(*args, **kwargs)` (line 28) merely creates and returns the
coroutine object — the body has not run, so no exception can reach the
`except` clause of line 29 and the loop exits on its first iteration.
The caller's `await` then runs the body exactly once, and any exception
the body raises — transient or not — propagates raw, bypassing the retry
loop entirely: the decorated methods get no retry, no sleep and no
`BluetoothBackendException` wrapping from the decorator.  Hence the
decorated method is observationally the body run once. -/
def method_wrapper (body : σ → BodyResult α σ) (s : σ) : MethodRun α σ :=
  ⟨(body s).result, (body s).state, (body s).events⟩

namespace BleakBackend

/-- Body of `connect` (lines 49-55): `self._peripheral = await
BleakClient(mac).connect()`.  On transport success the token is stored;
if the awaited call raises, the assignment does not happen and the state
is left as it was. -/
def connect_body (tr : Transport) (mac : String) (s : Option Token) :
    BodyResult Unit (Option Token) :=
  match tr.connect mac with
  | .ok tok => ⟨.ok (), some tok, [.connectCall mac]⟩
  | .error e => ⟨.error (.bleak e), s, [.connectCall mac]⟩

/-- `connect` as the caller sees it: the body behind `@wrap_exception`. -/
def connect (tr : Transport) (mac : String) (s : Option Token) :
    MethodRun Unit (Option Token) :=
  method_wrapper (connect_body tr mac) s

/-- Body of `disconnect` (lines 58-65): if `self._peripheral is None`
return immediately (lines 61-62); otherwise `await
self._peripheral.disconnect()` (line 64) and only then
`self._peripheral = None` (line 65) — if the awaited release raises, the
assignment is not reached and the token stays stored. -/
def disconnect_body (tr : Transport) (s : Option Token) :
    BodyResult Unit (Option Token) :=
  match s with
  | none => ⟨.ok (), none, []⟩
  | some tok =>
    match tr.disconnect tok with
    | .ok _ => ⟨.ok (), none, [.disconnectCall tok]⟩
    | .error e => ⟨.error (.bleak e), some tok, [.disconnectCall tok]⟩

/-- `disconnect` as the caller sees it: the body behind
`@wrap_exception`. -/
def disconnect (tr : Transport) (s : Option Token) :
    MethodRun Unit (Option Token) :=
  method_wrapper (disconnect_body tr) s

/-- Body of `read_handle` (lines 67-77): raise
`BluetoothBackendException("not connected to backend")` when
`self._peripheral is None` (lines 73-74), otherwise return
`await self._peripheral.read_gatt_char(handle - 1)` (line 77). -/
def read_handle_body (tr : Transport) (handle : Int) (s : Option Token) :
    BodyResult Bytes (Option Token) :=
  match s with
  | none => ⟨.error (.backendException "not connected to backend" none), none, []⟩
  | some tok =>
    match tr.read_gatt_char tok (handle - 1) with
    | .ok data => ⟨.ok data, some tok, [.readGattCharCall tok (handle - 1)]⟩
    | .error e => ⟨.error (.bleak e), some tok, [.readGattCharCall tok (handle - 1)]⟩

/-- `read_handle` as the caller sees it: the body behind
`@wrap_exception`. -/
def read_handle (tr : Transport) (handle : Int) (s : Option Token) :
    MethodRun Bytes (Option Token) :=
  method_wrapper (read_handle_body tr handle) s

/-- Body of `write_handle` (lines 79-87): the same precondition check
(lines 85-86), then return `await
self._peripheral.write_gatt_char(handle - 1, value, True)` (line 87) —
the third argument requests a write with response (acknowledged). -/
def write_handle_body (tr : Transport) (handle : Int) (value : Bytes)
    (s : Option Token) : BodyResult Unit (Option Token) :=
  match s with
  | none => ⟨.error (.backendException "not connected to backend" none), none, []⟩
  | some tok =>
    match tr.write_gatt_char tok (handle - 1) value true with
    | .ok _ => ⟨.ok (), some tok, [.writeGattCharCall tok (handle - 1) value true]⟩
    | .error e => ⟨.error (.bleak e), some tok, [.writeGattCharCall tok (handle - 1) value true]⟩

/-- `write_handle` as the caller sees it: the body behind
`@wrap_exception`. -/
def write_handle (tr : Transport) (handle : Int) (value : Bytes)
    (s : Option Token) : MethodRun Unit (Option Token) :=
  method_wrapper (write_handle_body tr handle value) s

/-- Body of `wait_for_notification` (lines 89-97): the same precondition
check (lines 91-92); then the statement
`self.write_handle(handle, self._DATA_MODE_LISTEN)` (line 95) calls the
`async def write_handle` WITHOUT `await`, so it only creates a coroutine
that is immediately discarded — no write effect and no transport call
happens; then `self._peripheral.withDelegate(delegate)` (line 96) and
`return self._peripheral.waitForNotifications(notification_timeout)`
(line 97). -/
def wait_for_notification_body (tr : Transport) (handle : Int)
    (delegate : Delegate) (notification_timeout : Timeout)
    (s : Option Token) : BodyResult Bool (Option Token) :=
  match s with
  | none => ⟨.error (.backendException "not connected to backend" none), none, []⟩
  | some tok =>
    match tr.withDelegate tok delegate with
    | .error e => ⟨.error (.bleak e), some tok, [.withDelegateCall tok delegate]⟩
    | .ok _ =>
      match tr.waitForNotifications tok notification_timeout with
      | .ok b =>
        ⟨.ok b, some tok,
          [.withDelegateCall tok delegate, .waitForNotificationsCall tok notification_timeout]⟩
      | .error e =>
        ⟨.error (.bleak e), some tok,
          [.withDelegateCall tok delegate, .waitForNotificationsCall tok notification_timeout]⟩

/-- `wait_for_notification` as the caller sees it: the body behind
`@wrap_exception`. -/
def wait_for_notification (tr : Transport) (handle : Int)
    (delegate : Delegate) (notification_timeout : Timeout)
    (s : Option Token) : MethodRun Bool (Option Token) :=
  method_wrapper (wait_for_notification_body tr handle delegate notification_timeout) s

/-- Body of the static method `scan_for_devices` (lines 115-127): no
session state; `for device in await scanner.discover(timeout):
result.append((device.address, device.name))` collects the advertisement
sequence into (address, name) pairs, preserving discovery order.  The
`adapter` argument is accepted but never used (a `BleakScanner()` is
created without it, line 123). -/
def scan_for_devices_body (tr : Transport) (timeout : Timeout)
    (adapter : String) (s : Unit) : BodyResult (List (String × Option String)) Unit :=
  match tr.discover timeout with
  | .ok devices =>
    ⟨.ok (devices.map fun d => (d.address, d.name)), (), [.discoverCall timeout]⟩
  | .error e => ⟨.error (.bleak e), (), [.discoverCall timeout]⟩

/-- `scan_for_devices` as the caller sees it: the body behind
`@wrap_exception` (the method is static, so there is no session state). -/
def scan_for_devices (tr : Transport) (timeout : Timeout)
    (adapter : String) : MethodRun (List (String × Option String)) Unit :=
  method_wrapper (scan_for_devices_body tr timeout adapter) ()

end BleakBackend

/-- The retry-loop trace of `k` consecutive failed attempts: attempt `i`
followed by the fixed `RETRY_DELAY` sleep, for `i = 0, ..., k - 1`. -/
def failedAttemptsTrace (k : Nat) : List RetryEvent :=
  (List.range k).flatMap fun i => [.attempt i, .sleep RETRY_DELAY_MS]

/-- A concrete operation failing transiently exactly twice, then
succeeding with value 7. -/
def C1op : Nat → Except PyError Nat := fun i =>
  if i < 2 then .error (.bleak ⟨false, "hiccup"⟩) else .ok 7

/-- C1: for an operation wrapped by the retry wrapper that fails with a
transient transport error exactly `k` times and then succeeds: if
`k < 3` the wrapped call returns the success value (after `k + 1`
attempts, a 100 ms sleep after each failure); if `k ≥ 3` it raises a
`BluetoothBackendException` after exactly 3 attempts, chaining the last
transient error (that of the third attempt) as its cause, with the fixed
100 ms delay between attempts. -/
theorem C1_retry_transient_then_success {α : Type}
    (op : Nat → Except PyError α) (k : Nat) (es : Nat → BleakErr) (v : α)
    (hfail : ∀ i, i < k → op i = .error (.bleak (es i)))
    (hsucc : op k = .ok v) :
    (k < RETRY_LIMIT →
      func_wrapper op = ⟨.ok v, failedAttemptsTrace k ++ [.attempt k]⟩) ∧
    (RETRY_LIMIT ≤ k →
      func_wrapper op =
          ⟨.error (.backendException "" (some (es 2))), failedAttemptsTrace RETRY_LIMIT⟩ ∧
        RETRY_DELAY_MS = 100) := by
  constructor
  · intro hk
    have hk3 : k < 3 := hk
    interval_cases k
    · simp [func_wrapper, func_wrapper_loop, RETRY_LIMIT, hsucc, failedAttemptsTrace]
    · have h0 := hfail 0 (by omega)
      simp [func_wrapper, func_wrapper_loop, RETRY_LIMIT, h0, hsucc,
        failedAttemptsTrace, List.range_succ]
    · have h0 := hfail 0 (by omega)
      have h1 := hfail 1 (by omega)
      simp [func_wrapper, func_wrapper_loop, RETRY_LIMIT, h0, h1, hsucc,
        failedAttemptsTrace, List.range_succ]
  · intro hk
    have hk3 : 3 ≤ k := hk
    have h0 := hfail 0 (by omega)
    have h1 := hfail 1 (by omega)
    have h2 := hfail 2 (by omega)
    refine ⟨?_, rfl⟩
    simp [func_wrapper, func_wrapper_loop, RETRY_LIMIT, h0, h1, h2,
      failedAttemptsTrace, List.range_succ]

/-- C1 witness: `C1op` fails transiently exactly twice then succeeds with
7, and the wrapped call returns 7 after three attempts with a 100 ms
sleep after each of the two failures. -/
theorem C1_retry_transient_then_success_witness :
    C1op 2 = .ok 7 ∧
    func_wrapper C1op = ⟨.ok 7, failedAttemptsTrace 2 ++ [.attempt 2]⟩ :=
  ⟨by decide,
    (C1_retry_transient_then_success C1op 2 (fun _ => ⟨false, "hiccup"⟩) 7
      (by decide) (by decide)).1 (by decide)⟩

/-- C5: an operation wrapped by the retry wrapper that fails with a
non-transient error (anything outside the caught bleak error class —
for instance the not-connected `BluetoothBackendException`) is attempted
exactly once; the error propagates immediately and unmodified, with no
sleep and no re-wrapping. -/
theorem C5_nontransient_single_attempt {α : Type}
    (op : Nat → Except PyError α) (e : PyError)
    (hnt : e.isTransient = false) (h0 : op 0 = .error e) :
    func_wrapper op = ⟨.error e, [.attempt 0]⟩ := by
  cases e with
  | bleak e => simp [PyError.isTransient] at hnt
  | backendException msg cause =>
    simp [func_wrapper, func_wrapper_loop, RETRY_LIMIT, h0]
  | other name =>
    simp [func_wrapper, func_wrapper_loop, RETRY_LIMIT, h0]

/-- A concrete operation raising the not-connected precondition error on
its first attempt. -/
def C5op : Nat → Except PyError Nat := fun _ =>
  .error (.backendException "not connected to backend" none)

/-- C5 witness: the precondition `BluetoothBackendException` is
non-transient, `C5op` raises it on attempt 0, and the wrapped call makes
exactly one attempt and propagates it unmodified. -/
theorem C5_nontransient_single_attempt_witness :
    (PyError.backendException "not connected to backend" none).isTransient = false ∧
    func_wrapper C5op =
      ⟨.error (.backendException "not connected to backend" none), [.attempt 0]⟩ :=
  ⟨by decide,
    C5_nontransient_single_attempt C5op
      (.backendException "not connected to backend" none) (by decide) (by decide)⟩

/-- C10: a run of the retry wrapper that exhausts the retry budget
performs the 100 ms sleep after every one of its 3 failed attempts —
also after the final one, just before raising — so exactly 3 sleeps
occur, not only the 2 strictly between attempts. -/
theorem C10_sleep_after_every_failed_attempt {α : Type}
    (op : Nat → Except PyError α) (es : Nat → BleakErr)
    (hfail : ∀ i, i < RETRY_LIMIT → op i = .error (.bleak (es i))) :
    func_wrapper op =
      ⟨.error (.backendException "" (some (es 2))),
        [.attempt 0, .sleep RETRY_DELAY_MS, .attempt 1, .sleep RETRY_DELAY_MS,
          .attempt 2, .sleep RETRY_DELAY_MS]⟩ ∧
    ((func_wrapper op).trace.count (RetryEvent.sleep RETRY_DELAY_MS) = 3 ∧
      RETRY_DELAY_MS = 100) := by
  have h0 := hfail 0 (by decide)
  have h1 := hfail 1 (by decide)
  have h2 := hfail 2 (by decide)
  have hrun : func_wrapper op =
      ⟨.error (.backendException "" (some (es 2))),
        [.attempt 0, .sleep RETRY_DELAY_MS, .attempt 1, .sleep RETRY_DELAY_MS,
          .attempt 2, .sleep RETRY_DELAY_MS]⟩ := by
    simp [func_wrapper, func_wrapper_loop, RETRY_LIMIT, h0, h1, h2]
  have htr : (func_wrapper op).trace =
      [.attempt 0, .sleep RETRY_DELAY_MS, .attempt 1, .sleep RETRY_DELAY_MS,
        .attempt 2, .sleep RETRY_DELAY_MS] := by rw [hrun]
  exact ⟨hrun, by rw [htr]; decide, rfl⟩

/-- A concrete operation failing transiently on every attempt. -/
def C10op : Nat → Except PyError Nat := fun _ => .error (.bleak ⟨true, "dbus"⟩)

/-- C10 witness: on an always-transiently-failing operation the wrapper
raises after 3 attempts with 3 sleeps in the trace, one after each
failed attempt including the last. -/
theorem C10_sleep_after_every_failed_attempt_witness :
    func_wrapper C10op =
      ⟨.error (.backendException "" (some ⟨true, "dbus"⟩)),
        [.attempt 0, .sleep RETRY_DELAY_MS, .attempt 1, .sleep RETRY_DELAY_MS,
          .attempt 2, .sleep RETRY_DELAY_MS]⟩ ∧
    ((func_wrapper C10op).trace.count (RetryEvent.sleep RETRY_DELAY_MS) = 3 ∧
      RETRY_DELAY_MS = 100) :=
  C10_sleep_after_every_failed_attempt C10op (fun _ => ⟨true, "dbus"⟩) (by decide)

/-- A concrete transport on which every primitive succeeds; discovery
yields three advertisements, the first and third identical. -/
def trOk : Transport :=
  ⟨fun _ => .ok 7, fun _ => .ok (), fun _ _ => .ok [1, 2], fun _ _ _ _ => .ok (),
    fun _ _ => .ok (), fun _ _ => .ok true,
    fun _ => .ok [⟨"AA:BB", some "flower"⟩, ⟨"CC:DD", none⟩, ⟨"AA:BB", some "flower"⟩]⟩

/-- A concrete transport whose connect always fails transiently. -/
def trConnFail : Transport :=
  ⟨fun _ => .error ⟨true, "connect timeout"⟩, fun _ => .ok (), fun _ _ => .ok [],
    fun _ _ _ _ => .ok (), fun _ _ => .ok (), fun _ _ => .ok true, fun _ => .ok []⟩

/-- A concrete transport whose release (peripheral disconnect) always
fails transiently. -/
def trReleaseFail : Transport :=
  ⟨fun _ => .ok 7, fun _ => .error ⟨true, "dbus release"⟩, fun _ _ => .ok [],
    fun _ _ _ _ => .ok (), fun _ _ => .ok (), fun _ _ => .ok true, fun _ => .ok []⟩

/-- C3: invoked in the Disconnected state (`self._peripheral = None`),
each of `read_handle`, `write_handle` and `wait_for_notification` raises
the precondition `BluetoothBackendException("not connected to backend")`
without performing any transport call, leaving the state Disconnected;
the exception propagates unmodified to the awaiting caller on the single
run of the body. -/
theorem C3_precondition_not_connected (tr : Transport) (handle : Int)
    (value : Bytes) (delegate : Delegate) (t : Timeout) :
    BleakBackend.read_handle tr handle none =
      ⟨.error (.backendException "not connected to backend" none), none, []⟩ ∧
    BleakBackend.write_handle tr handle value none =
      ⟨.error (.backendException "not connected to backend" none), none, []⟩ ∧
    BleakBackend.wait_for_notification tr handle delegate t none =
      ⟨.error (.backendException "not connected to backend" none), none, []⟩ :=
  ⟨rfl, rfl, rfl⟩

/-- C4: in the Connected state, for a handle `h ≥ 1`, `read_handle h`
performs exactly one transport read at native handle `h - 1` and returns
the byte payload the transport yields, and `write_handle h value`
performs exactly one transport write of `value` at native handle `h - 1`
with acknowledgment requested (`True`), returning nothing. -/
theorem C4_handle_adjustment (tr : Transport) (tok : Token) (h : Int)
    (value payload : Bytes) (hh : 1 ≤ h)
    (hread : tr.read_gatt_char tok (h - 1) = .ok payload)
    (hwrite : tr.write_gatt_char tok (h - 1) value true = .ok ()) :
    BleakBackend.read_handle tr h (some tok) =
      ⟨.ok payload, some tok, [.readGattCharCall tok (h - 1)]⟩ ∧
    BleakBackend.write_handle tr h value (some tok) =
      ⟨.ok (), some tok, [.writeGattCharCall tok (h - 1) value true]⟩ := by
  constructor
  · simp [BleakBackend.read_handle, BleakBackend.read_handle_body, method_wrapper, hread]
  · simp [BleakBackend.write_handle, BleakBackend.write_handle_body, method_wrapper, hwrite]

/-- C4 witness: on `trOk`, reading handle 10 while connected with token 5
reads native handle 9 and returns the payload, and writing handle 10
writes native handle 9 with acknowledgment. -/
theorem C4_handle_adjustment_witness :
    (1 : Int) ≤ 10 ∧
    BleakBackend.read_handle trOk 10 (some 5) =
      ⟨.ok [1, 2], some 5, [.readGattCharCall 5 9]⟩ ∧
    BleakBackend.write_handle trOk 10 [3] (some 5) =
      ⟨.ok (), some 5, [.writeGattCharCall 5 9 [3] true]⟩ :=
  ⟨by decide, C4_handle_adjustment trOk 5 10 [3] [1, 2] (by decide) rfl rfl⟩

/-- C7: `connect` is the only operation that moves the session from
Disconnected to Connected.  From state `none`: when the transport yields
a token, `connect` stores it (state becomes `some tok`); when the
transport connect fails (e.g. a timeout, surfacing as a transient
error), the raw error propagates from the single attempt — the awaited
assignment on line 55 is never reached — and the state remains `none`
with no token stored.  Every other session operation invoked from
`none` leaves the state `none`. -/
theorem C7_connect_only_transition (tr : Transport) (mac : String) :
    (∀ tok, tr.connect mac = .ok tok →
      BleakBackend.connect tr mac none = ⟨.ok (), some tok, [.connectCall mac]⟩) ∧
    (∀ e, tr.connect mac = .error e →
      BleakBackend.connect tr mac none =
        ⟨.error (.bleak e), none, [.connectCall mac]⟩) ∧
    (BleakBackend.disconnect tr none).state = none ∧
    (∀ h, (BleakBackend.read_handle tr h none).state = none) ∧
    (∀ h v, (BleakBackend.write_handle tr h v none).state = none) ∧
    (∀ h d t, (BleakBackend.wait_for_notification tr h d t none).state = none) := by
  refine ⟨?_, ?_, rfl, fun h => rfl, fun h v => rfl, fun h d t => rfl⟩
  · intro tok htok
    simp [BleakBackend.connect, BleakBackend.connect_body, method_wrapper, htok]
  · intro e he
    simp [BleakBackend.connect, BleakBackend.connect_body, method_wrapper, he]

/-- C7 witness: on `trOk`, connecting from Disconnected stores token 7;
on `trConnFail`, the single connect attempt fails and the state stays
Disconnected with no token stored. -/
theorem C7_connect_only_transition_witness :
    BleakBackend.connect trOk "AA:BB" none = ⟨.ok (), some 7, [.connectCall "AA:BB"]⟩ ∧
    BleakBackend.connect trConnFail "AA:BB" none =
      ⟨.error (.bleak ⟨true, "connect timeout"⟩), none, [.connectCall "AA:BB"]⟩ :=
  ⟨(C7_connect_only_transition trOk "AA:BB").1 7 rfl,
    (C7_connect_only_transition trConnFail "AA:BB").2.1 ⟨true, "connect timeout"⟩ rfl⟩

/-- C2 counterexample: on a transport whose release raises a transient
error, `disconnect()` from Connected with token 5 propagates an error
but does NOT clear the connection token — the final state is still
`some 5`, not Disconnected — refuting the claim that the token is
cleared regardless of whether the release call raises.  (In the source,
`self._peripheral = None` on line 65 is only reached after the awaited
release on line 64 returns; there is no try/finally.  The `BleakError`
propagates raw from the single release attempt: the synchronous
decorator never observes exceptions of the async body.) -/
theorem C2_token_not_cleared_counterexample :
    (BleakBackend.disconnect trReleaseFail (some 5)).state = some 5 ∧
    (BleakBackend.disconnect trReleaseFail (some 5)).state ≠ none ∧
    (BleakBackend.disconnect trReleaseFail (some 5)).result =
      .error (.bleak ⟨true, "dbus release"⟩) := by
  decide

/-- C2 amended: `disconnect()` while Connected clears the token only when
the transport release succeeds; when the release raises, the release is
attempted once, the raw transient error is propagated to the caller
unmodified, and the token is NOT cleared: the session remains
Connected. -/
theorem C2_disconnect_clears_only_on_success (tr : Transport) (tok : Token) :
    (tr.disconnect tok = .ok () →
      BleakBackend.disconnect tr (some tok) = ⟨.ok (), none, [.disconnectCall tok]⟩) ∧
    (∀ e, tr.disconnect tok = .error e →
      BleakBackend.disconnect tr (some tok) =
        ⟨.error (.bleak e), some tok, [.disconnectCall tok]⟩) := by
  constructor
  · intro hok
    simp [BleakBackend.disconnect, BleakBackend.disconnect_body, method_wrapper, hok]
  · intro e he
    simp [BleakBackend.disconnect, BleakBackend.disconnect_body, method_wrapper, he]

/-- C2 amended witness: on `trOk` the release succeeds and the token is
cleared; on `trReleaseFail` the single release attempt raises, the raw
error propagates and token 5 is kept. -/
theorem C2_disconnect_clears_only_on_success_witness :
    BleakBackend.disconnect trOk (some 5) = ⟨.ok (), none, [.disconnectCall 5]⟩ ∧
    BleakBackend.disconnect trReleaseFail (some 5) =
      ⟨.error (.bleak ⟨true, "dbus release"⟩), some 5, [.disconnectCall 5]⟩ :=
  ⟨(C2_disconnect_clears_only_on_success trOk 5).1 rfl,
    (C2_disconnect_clears_only_on_success trReleaseFail 5).2 ⟨true, "dbus release"⟩ rfl⟩

/-- C8 counterexample: from Connected with token 5 on a transport whose
release always fails transiently, the second of two consecutive
`disconnect()` calls does invoke the transport (the token was retained),
does error, and leaves the state Connected — refuting the claim that for
every session state the second call returns immediately without invoking
the transport, never errors, and ends Disconnected. -/
theorem C8_idempotence_counterexample :
    (BleakBackend.disconnect trReleaseFail
        ((BleakBackend.disconnect trReleaseFail (some 5)).state)).events ≠ [] ∧
    (BleakBackend.disconnect trReleaseFail
        ((BleakBackend.disconnect trReleaseFail (some 5)).state)).result ≠ .ok () ∧
    (BleakBackend.disconnect trReleaseFail
        ((BleakBackend.disconnect trReleaseFail (some 5)).state)).state ≠ none := by
  decide

/-- C8 amended: whenever a `disconnect()` call returns without error
(which includes every call made in the Disconnected state), an
immediately following `disconnect()` returns without error, performs no
transport call, and leaves the state Disconnected.  The unrestricted
claim fails only when the first call itself errored: then the token is
retained and the second call attempts the release again. -/
theorem C8_disconnect_idempotent_after_success (tr : Transport) (s : Option Token)
    (hok : (BleakBackend.disconnect tr s).result = .ok ()) :
    BleakBackend.disconnect tr ((BleakBackend.disconnect tr s).state) =
      ⟨.ok (), none, []⟩ := by
  cases s with
  | none => rfl
  | some tok =>
    cases hd : tr.disconnect tok with
    | ok u =>
      cases u
      have hstate : (BleakBackend.disconnect tr (some tok)).state = none := by
        simp [BleakBackend.disconnect, BleakBackend.disconnect_body, method_wrapper, hd]
      rw [hstate]
      rfl
    | error e =>
      exfalso
      have hres : (BleakBackend.disconnect tr (some tok)).result =
          .error (.bleak e) := by
        simp [BleakBackend.disconnect, BleakBackend.disconnect_body, method_wrapper, hd]
      rw [hres] at hok
      exact Except.noConfusion hok

/-- C8 amended witness: on `trOk` from Connected with token 5 the first
`disconnect()` succeeds, and the second returns immediately with no
error, no transport call, and final state Disconnected. -/
theorem C8_disconnect_idempotent_after_success_witness :
    (BleakBackend.disconnect trOk (some 5)).result = .ok () ∧
    BleakBackend.disconnect trOk ((BleakBackend.disconnect trOk (some 5)).state) =
      ⟨.ok (), none, []⟩ :=
  ⟨by decide, C8_disconnect_idempotent_after_success trOk (some 5) (by decide)⟩

/-- True iff the transport call is a characteristic write. -/
def TEvent.isWriteCall : TEvent → Bool
  | .writeGattCharCall _ _ _ _ => true
  | _ => false

/-- C6 (code slip, evaluated at the failing input): from Connected with
token 5, handle 10, delegate 2, timeout 4 on `trOk`,
`wait_for_notification` performs only the delegate registration followed
by the notification wait and returns the transport's signal — it
performs NO write at all: the listen-command statement
`self.write_handle(handle, self._DATA_MODE_LISTEN)` (line 95) calls the
`async def write_handle` without `await`, so the coroutine is created and
discarded and the claimed completed write arming notifications never
reaches the transport. -/
theorem C6_listen_write_never_performed :
    BleakBackend.wait_for_notification trOk 10 2 4 (some 5) =
      ⟨.ok true, some 5, [.withDelegateCall 5 2, .waitForNotificationsCall 5 4]⟩ ∧
    (BleakBackend.wait_for_notification trOk 10 2 4 (some 5)).events.filter
        TEvent.isWriteCall = [] := by
  decide

/-- C9: `scan_for_devices` requires no session state (it is a static
method: the definition takes no session state at all, so no prior
connect is needed), invokes the transport discovery primitive with the
given timeout, and returns the (address, name) pair of every discovered
advertisement, in discovery order, duplicates passed through as-is; the
result does not depend on the `adapter` argument, which the source
ignores. -/
theorem C9_scan_discovery_order (tr : Transport) (t : Timeout)
    (adapter : String) (devs : List Device)
    (hdisc : tr.discover t = .ok devs) :
    BleakBackend.scan_for_devices tr t adapter =
      ⟨.ok (devs.map fun d => (d.address, d.name)), (), [.discoverCall t]⟩ ∧
    ∀ adapter2, BleakBackend.scan_for_devices tr t adapter2 =
      BleakBackend.scan_for_devices tr t adapter := by
  refine ⟨?_, fun adapter2 => rfl⟩
  simp [BleakBackend.scan_for_devices, BleakBackend.scan_for_devices_body, method_wrapper, hdisc]

/-- C9 witness: on `trOk`, whose discovery yields a duplicated
advertisement, scanning returns the three (address, name) pairs in
discovery order with the duplicate preserved. -/
theorem C9_scan_discovery_order_witness :
    trOk.discover 4 =
      .ok [⟨"AA:BB", some "flower"⟩, ⟨"CC:DD", none⟩, ⟨"AA:BB", some "flower"⟩] ∧
    BleakBackend.scan_for_devices trOk 4 "hci0" =
      ⟨.ok [("AA:BB", some "flower"), ("CC:DD", none), ("AA:BB", some "flower")], (),
        [.discoverCall 4]⟩ :=
  ⟨rfl,
    (C9_scan_discovery_order trOk 4 "hci0"
      [⟨"AA:BB", some "flower"⟩, ⟨"CC:DD", none⟩, ⟨"AA:BB", some "flower"⟩] rfl).1⟩
